import Mathlib

/-!
Verification of the Hue mood-lighting utility (`main.py`).

This file shallowly embeds the parts of `main.py` that the claims are
about:

* `_clamp`                    → `clampI` (integer instance used by the loop)
* Python 3 `round`            → `pyRound` (round-half-to-even on ℚ)
* `random.randint(lo, hi)`    → `randint` (derandomised by an explicit seed;
                                 it returns `lo + seed % (hi - lo + 1)`, which
                                 ranges over exactly `[lo, hi]`)
* `random.uniform(a, b)`      → `uniformQ` (derandomised: `a + (b-a)·fract s`)
* `_get_mood_max_seconds`     → `get_mood_max_seconds` (the CLI scan of
                                 `sys.argv` and the environment lookup are
                                 modelled by their results, two `Option ℚ`
                                 values, mirroring the `value` variable after
                                 each stage of the Python function)
* `set_light_state` payload   → `set_light_state` (the JSON body the client
                                 builds before the PUT)
* `mood`                      → `mood`, a trace semantics: the network calls
                                 the function issues, in order, as a list of
                                 `Event`s.  The unbounded `while True:` loop
                                 is given fuel as a list of per-cycle random
                                 inputs (`CycleInput`); exhausting the fuel
                                 yields `MoodResult.running` (the Python loop
                                 would still be iterating), whereas an
                                 observed stop event yields `.done` with the
                                 full trace including the `finally:` block.

Python floats are modelled by ℚ.  All arithmetic in the claims' concrete
test vectors is exact in IEEE double precision, so ℚ and float agree there.

The `stop_event` (`threading.Event`) is one-shot and monotone: once set it
stays set.  It is modelled by an optional threshold `stopT : Option Nat` on
the global count of `is_set()` calls the loop has performed: the k-th check
(0-indexed) reads `true` iff `stopT = some t` with `t ≤ k`.  `none` models
both `stop_event=None` and an event that is never set.
-/

/-- Model of `_clamp(v, lo, hi) = max(lo, min(hi, v))` at integer type, as
used on the results of `round` in the mood loop. -/
def clampI (v lo hi : Int) : Int := max lo (min hi v)

/-- Python 3 `round`: round half to even (banker's rounding). -/
def pyRound (q : ℚ) : Int :=
  let f := ⌊q⌋
  let r := q - f
  if r < 1/2 then f
  else if 1/2 < r then f + 1
  else if f % 2 = 0 then f else f + 1

/-- Model of `random.randint(lo, hi)`: an arbitrary value in `[lo, hi]`,
derandomised by a seed.  For `lo ≤ hi` the result is `lo + seed mod (hi-lo+1)`,
exactly the inclusive range of the Python call. -/
def randint (lo hi : Int) (seed : Nat) : Int :=
  lo + ((seed % (hi - lo + 1).toNat : Nat) : Int)

/-- Model of `random.uniform(a, b) = a + (b-a)*random()`: the unit sample is
derandomised as the fractional part of a rational seed. -/
def uniformQ (a b : ℚ) (seed : ℚ) : ℚ := a + (b - a) * Int.fract seed

/-- Model of `_get_mood_max_seconds`.  The scan of `sys.argv` for
`--mood-max-seconds=V` / `--mood-max-seconds V` / `-M V` is modelled by its
result `cliValue` (the Python local `value` after stage 1), and the
`HUE_MOOD_MAX_SECONDS` environment lookup by `envValue` (`None` covers both
an absent variable and an unparsable one).  Mirrors the priority chain and
the final `if value < 0.5: value = 0.5`. -/
def get_mood_max_seconds (cliValue envValue : Option ℚ) (dflt : ℚ) : ℚ :=
  let v : ℚ :=
    match cliValue with
    | some c => c
    | none =>
      match envValue with
      | some e => e
      | none => dflt
  if v < 1/2 then 1/2 else v

/-- Number of 0.1-second steps: `steps = max(1, int(round(t_seconds / 0.1)))`
from the mood loop. -/
def stepsOf (tSeconds : ℚ) : Nat :=
  max 1 (pyRound (tSeconds / (1/10))).toNat

/-- Per-step increment `(target - current) / steps` (floating point in the
source, ℚ here). -/
def incr (tgt cur : Int) (steps : Nat) : ℚ :=
  ((tgt : ℚ) - (cur : ℚ)) / (steps : ℚ)

/-- The JSON payload `set_light_state` builds: exactly the non-`None`
keyword arguments, with the client's own clamping
(`bri → [1,254]`, `hue → [0,65535]`, `sat → [0,254]`,
`transitiontime → [0,∞)`). -/
structure Payload where
  isOn : Option Bool
  bri : Option Int
  hue : Option Int
  sat : Option Int
  transitiontime : Option Int
  deriving DecidableEq, Repr

/-- Model of `set_light_state`: the payload dict it PUTs to the bridge. -/
def set_light_state (onVal : Option Bool) (bri hue sat transitiontime : Option Int) :
    Payload where
  isOn := onVal
  bri := bri.map fun b => max 1 (min 254 b)
  hue := hue.map fun h => max 0 (min 65535 h)
  sat := sat.map fun s => max 0 (min 254 s)
  transitiontime := transitiontime.map fun t => max 0 t

/-- One network call issued by `mood`, in order of occurrence:
the lights-collection GET (inside `resolve_light_id_by_name`), the
state GET (`get_light_state`), the power-on PUT, a per-tick animation PUT
(with its `hue`/`sat`/`bri` arguments; `on=True` and `transitiontime=0` are
constant in the source), and the restoration PUT from the `finally:` block. -/
inductive Event where
  | getLights
  | getState
  | powerOn
  | tickWrite (hue sat bri : Int)
  | restoreWrite (isOn : Bool) (bri hue sat : Int)
  deriving DecidableEq, Repr

/-- Discriminator for per-tick animation writes. -/
def isTickEv : Event → Bool
  | .tickWrite _ _ _ => true
  | _ => false

/-- Discriminator for restoration writes. -/
def isRestoreEv : Event → Bool
  | .restoreWrite _ _ _ _ => true
  | _ => false

/-- The mutable interpolation state `cur_hue, cur_sat, cur_bri` (all ints in
the source: they are re-assigned from `int(_clamp(round(...), ...))` every
tick). -/
structure Cur where
  hue : Int
  sat : Int
  bri : Int
  deriving DecidableEq, Repr

/-- The `state` dict returned by `get_light_state`; every field may be
absent, in which case `mood` substitutes defaults. -/
structure RawState where
  isOn : Option Bool
  bri : Option Int
  hue : Option Int
  sat : Option Int
  deriving DecidableEq, Repr

/-- The captured snapshot `orig_on, orig_bri, orig_hue, orig_sat`. -/
structure LightSnap where
  isOn : Bool
  bri : Int
  hue : Int
  sat : Int
  deriving DecidableEq, Repr

/-- Defaults from `state.get("on", False)`, `state.get("bri", 200)`,
`state.get("hue", 0)`, `state.get("sat", 200)`. -/
def origOf (raw : RawState) : LightSnap where
  isOn := raw.isOn.getD false
  bri := raw.bri.getD 200
  hue := raw.hue.getD 0
  sat := raw.sat.getD 200

/-- Starting interpolation state of the cycle loop (the same variables as
the snapshot, before any mutation). -/
def curOf (o : LightSnap) : Cur := ⟨o.hue, o.sat, o.bri⟩

/-- Whether the k-th `stop_event.is_set()` call reads `true`, for a one-shot
event modelled by an optional set-threshold on the global check counter. -/
def isSetAt (stopT : Option Nat) (k : Nat) : Bool :=
  match stopT with
  | none => false
  | some t => decide (t ≤ k)

/-- One tick body (lines 299-301 of `main.py`):
`cur = int(_clamp(round(cur + d), lo, hi))` for each channel. -/
def tickOnce (c : Cur) (dh ds db : ℚ) : Cur where
  hue := clampI (pyRound ((c.hue : ℚ) + dh)) 0 65535
  sat := clampI (pyRound ((c.sat : ℚ) + ds)) 0 254
  bri := clampI (pyRound ((c.bri : ℚ) + db)) 1 254

/-- Result of running the inner tick loop: events issued, final interpolation
state, next unused check index, and whether the loop broke on the stop event. -/
structure TickRun where
  events : List Event
  cur : Cur
  next : Nat
  stopped : Bool
  deriving DecidableEq, Repr

/-- The inner `for i in range(1, steps+1):` loop.  Each iteration checks the
stop event (consuming a check index), then advances the state by one clamped
increment and issues one animation write.  Transient write failures do not
alter the trace of issued calls (the call happens, the exception is caught
and logged, the loop continues). -/
def runTicks (stopT : Option Nat) (dh ds db : ℚ) :
    Nat → Cur → Nat → TickRun
  | 0, c, k => ⟨[], c, k, false⟩
  | n + 1, c, k =>
    if isSetAt stopT k then ⟨[], c, k + 1, true⟩
    else
      let c2 := tickOnce c dh ds db
      let r := runTicks stopT dh ds db n c2 (k + 1)
      ⟨.tickWrite c2.hue c2.sat c2.bri :: r.events, r.cur, r.next, r.stopped⟩

/-- The fresh per-cycle random inputs: seeds for the three `randint` calls
and the `uniform` call, plus the two configuration sources re-read by
`_get_mood_max_seconds` on this cycle. -/
structure CycleInput where
  hueSeed : Nat
  satSeed : Nat
  briSeed : Nat
  durSeed : ℚ
  cliMax : Option ℚ
  envMax : Option ℚ
  deriving DecidableEq, Repr

/-- The freshly sampled target of one cycle:
`random.randint(0, 65535)`, `random.randint(150, 254)`,
`random.randint(10, 254)`. -/
structure Target where
  hue : Int
  sat : Int
  bri : Int
  deriving DecidableEq, Repr

/-- Target sampling for one cycle (lines 279-281). -/
def sampleTarget (ci : CycleInput) : Target where
  hue := randint 0 65535 ci.hueSeed
  sat := randint 150 254 ci.satSeed
  bri := randint 10 254 ci.briSeed

/-- Per-cycle resolved maximum seconds: `_get_mood_max_seconds(30.0)`. -/
def maxSecondsOf (ci : CycleInput) : ℚ :=
  get_mood_max_seconds ci.cliMax ci.envMax 30

/-- Per-cycle sampled duration: `random.uniform(0.5, max_seconds)`. -/
def tSecondsOf (ci : CycleInput) : ℚ :=
  uniformQ (1/2) (maxSecondsOf ci) ci.durSeed

/-- Per-cycle step count. -/
def cycleSteps (ci : CycleInput) : Nat := stepsOf (tSecondsOf ci)

/-- Result of running the outer cycle loop. `exited = false` means the fuel
(the list of cycle inputs) ran out while the Python loop would still be
iterating. -/
structure CycleRun where
  events : List Event
  cur : Cur
  next : Nat
  exited : Bool
  deriving Repr

/-- The outer `while True:` loop (lines 274-324).  Each iteration: check the
stop event and break if set; sample a target, duration and step count;
compute the three increments; run the tick loop; re-check the stop event
(line 320) and break if set; otherwise continue with the carried-forward
current state. -/
def runCycles (stopT : Option Nat) :
    List CycleInput → Cur → Nat → CycleRun
  | [], c, k => ⟨[], c, k, false⟩
  | ci :: rest, c, k =>
    if isSetAt stopT k then ⟨[], c, k + 1, true⟩
    else
      let tgt := sampleTarget ci
      let steps := cycleSteps ci
      let dh := incr tgt.hue c.hue steps
      let ds := incr tgt.sat c.sat steps
      let db := incr tgt.bri c.bri steps
      let tr := runTicks stopT dh ds db steps c (k + 1)
      if isSetAt stopT tr.next then ⟨tr.events, tr.cur, tr.next + 1, true⟩
      else
        let cr := runCycles stopT rest tr.cur (tr.next + 1)
        ⟨tr.events ++ cr.events, cr.cur, cr.next, cr.exited⟩

/-- Error raised by `get_light_state` as observed by `mood`'s handler:
a transport error (`requests.exceptions.RequestException`) or a JSON parse
error (`requests.exceptions.JSONDecodeError`, a `RequestException`
subclass); both reach the same `except` clause at line 251. -/
inductive ReadErr where
  | transport
  | parse
  deriving DecidableEq, Repr

/-- Explicit inputs of one `mood(bulb_name, stop_event=..., restore_on_exit=...)`
call: the configuration credential, the bridge's responses to the setup
calls, the stop-event model, the per-cycle random inputs (fuel), and the
`restore_on_exit` flag. -/
structure MoodArgs where
  userId : Option String
  resolveResult : Except Unit (Option String)
  readResult : Except ReadErr RawState
  powerOnFails : Bool
  stopT : Option Nat
  cycles : List CycleInput
  restoreOnExit : Bool

/-- Python falsiness test `if not user_id:` on the optional credential. -/
def userIdMissing : Option String → Bool
  | none => true
  | some s => decide (s = "")

/-- Outcome of a `mood` call: it raised `RuntimeError` (before any network
call), it is still looping (fuel exhausted), or it returned, each with the
trace of network calls issued. -/
inductive MoodResult where
  | raisedRuntimeError (events : List Event)
  | running (events : List Event)
  | done (events : List Event)
  deriving DecidableEq, Repr

/-- Setup events before the cycle loop on the paths that reach it:
the lights GET, the state GET, and the power-on PUT when the light was off. -/
def preEvents (o : LightSnap) : List Event :=
  if o.isOn then [.getLights, .getState] else [.getLights, .getState, .powerOn]

/-- The `finally:` block's calls: one restoration write carrying the
captured snapshot, if `restore_on_exit` is set. -/
def restoreEvents (restoreOnExit : Bool) (o : LightSnap) : List Event :=
  if restoreOnExit then [.restoreWrite o.isOn o.bri o.hue o.sat] else []

/-- The `try: while True: ... finally: ...` part of `mood` (lines 273-341),
entered with the captured snapshot `o`. -/
def moodLoop (a : MoodArgs) (o : LightSnap) : MoodResult :=
  if (runCycles a.stopT a.cycles (curOf o) 0).exited then
    .done (preEvents o ++ (runCycles a.stopT a.cycles (curOf o) 0).events ++
      restoreEvents a.restoreOnExit o)
  else
    .running (preEvents o ++ (runCycles a.stopT a.cycles (curOf o) 0).events)

/-- Trace semantics of `mood` (lines 215-341).  In order:
the `if not user_id: raise RuntimeError` guard; the name resolution
(transport failure or a falsy id each log and return); the state read
(failure logs and returns — before the `try`, so no restoration); the
snapshot capture; the power-on attempt for an off light (failure logs and
returns, still before the `try`); then the cycle loop and the `finally:`
restoration. -/
def mood (a : MoodArgs) : MoodResult :=
  if userIdMissing a.userId then .raisedRuntimeError []
  else
    match a.resolveResult with
    | .error _ => .done [.getLights]
    | .ok none => .done [.getLights]
    | .ok (some lid) =>
      if lid = "" then .done [.getLights]
      else
        match a.readResult with
        | .error _ => .done [.getLights, .getState]
        | .ok raw =>
          if !(origOf raw).isOn && a.powerOnFails then .done (preEvents (origOf raw))
          else moodLoop a (origOf raw)

/-- The state after k iterations of the tick body with fixed increments:
each tick starts from the previous tick's integer state. -/
def applyTicks (dh ds db : ℚ) : Nat → Cur → Cur
  | 0, c => c
  | n + 1, c => applyTicks dh ds db n (tickOnce c dh ds db)

/-! ### Concrete inputs used by the witness theorems -/

/-- A bridge state with every field present and the light on. -/
def wRaw : RawState := ⟨some true, some 77, some 1000, some 99⟩

/-- A cycle input whose duration seed samples 0.5 s (5 steps). -/
def wCi : CycleInput := ⟨100, 0, 0, 0, none, none⟩

/-- A cycle input whose duration seed samples 1.0 s (10 steps):
`uniform(0.5, 30)` at fractional seed `1/59` is `0.5 + 29.5/59 = 1`. -/
def wCiTen : CycleInput := ⟨0, 0, 0, 1/59, none, none⟩

/-- Mood-call inputs: setup succeeds, stop event set before the first
check, one cycle of fuel. -/
def wExitNow : MoodArgs := ⟨some "u", .ok (some "7"), .ok wRaw, false, some 0, [wCi], true⟩

/-- Mood-call inputs: setup succeeds, stop event set at check index 4
(after tick 3) of a 10-step cycle. -/
def wCancelMid : MoodArgs := ⟨some "u", .ok (some "7"), .ok wRaw, false, some 4, [wCiTen], true⟩

/-- Mood-call inputs: setup succeeds, stop event never set, one cycle of
fuel (the loop is still running when the fuel ends). -/
def wKeepRunning : MoodArgs := ⟨some "u", .ok (some "7"), .ok wRaw, false, none, [wCi], true⟩

/-- The trace `wKeepRunning` produces: setup GETs, then the five animation
writes of one full 0.5-second cycle (the fuel then ends mid-loop). -/
def wRunTrace : List Event :=
  [.getLights, .getState, .tickWrite 820 109 64, .tickWrite 640 119 51,
   .tickWrite 460 129 38, .tickWrite 280 139 25, .tickWrite 100 149 12]

/-- Mood-call inputs: the state read fails with a JSON parse error. -/
def wReadFail : MoodArgs := ⟨some "u", .ok (some "7"), .error .parse, false, none, [], true⟩

/-- Mood-call inputs: the credential is absent. -/
def wNoUser : MoodArgs := ⟨none, .ok (some "7"), .ok wRaw, false, none, [], true⟩

/-! ### Basic lemmas about the clamped tick step -/

theorem clampI_bounds (v lo hi : Int) (h : lo ≤ hi) :
    lo ≤ clampI v lo hi ∧ clampI v lo hi ≤ hi := by
  unfold clampI
  omega

/-- Shape of every animation write: a `tickWrite` whose channels are inside
the post-clamp legal ranges. -/
def TickWriteInRange (e : Event) : Prop :=
  ∃ h s b, e = Event.tickWrite h s b ∧
    0 ≤ h ∧ h ≤ 65535 ∧ 0 ≤ s ∧ s ≤ 254 ∧ 1 ≤ b ∧ b ≤ 254

theorem tickOnce_range (c : Cur) (dh ds db : ℚ) :
    0 ≤ (tickOnce c dh ds db).hue ∧ (tickOnce c dh ds db).hue ≤ 65535 ∧
    0 ≤ (tickOnce c dh ds db).sat ∧ (tickOnce c dh ds db).sat ≤ 254 ∧
    1 ≤ (tickOnce c dh ds db).bri ∧ (tickOnce c dh ds db).bri ≤ 254 := by
  unfold tickOnce
  refine ⟨(clampI_bounds _ _ _ (by omega)).1, (clampI_bounds _ _ _ (by omega)).2,
    (clampI_bounds _ _ _ (by omega)).1, (clampI_bounds _ _ _ (by omega)).2,
    (clampI_bounds _ _ _ (by omega)).1, (clampI_bounds _ _ _ (by omega)).2⟩

theorem runTicks_events_shape (stopT : Option Nat) (dh ds db : ℚ) :
    ∀ (n : Nat) (c : Cur) (k : Nat),
      ∀ e ∈ (runTicks stopT dh ds db n c k).events, TickWriteInRange e := by
  intro n
  induction n with
  | zero => intro c k e he; simp [runTicks] at he
  | succ n ih =>
    intro c k e he
    by_cases hs : isSetAt stopT k
    · simp [runTicks, hs] at he
    · simp only [runTicks, hs, Bool.false_eq_true, if_false, List.mem_cons] at he
      rcases he with rfl | he
      · obtain ⟨r1, r2, r3, r4, r5, r6⟩ := tickOnce_range c dh ds db
        exact ⟨_, _, _, rfl, r1, r2, r3, r4, r5, r6⟩
      · exact ih _ _ e he

theorem runCycles_events_shape (stopT : Option Nat) :
    ∀ (cis : List CycleInput) (c : Cur) (k : Nat),
      ∀ e ∈ (runCycles stopT cis c k).events, TickWriteInRange e := by
  intro cis
  induction cis with
  | nil => intro c k e he; simp [runCycles] at he
  | cons ci rest ih =>
    intro c k e he
    by_cases hs : isSetAt stopT k
    · simp [runCycles, hs] at he
    · simp only [runCycles, hs, Bool.false_eq_true, if_false] at he
      by_cases hs2 : isSetAt stopT (runTicks stopT
          (incr (sampleTarget ci).hue c.hue (cycleSteps ci))
          (incr (sampleTarget ci).sat c.sat (cycleSteps ci))
          (incr (sampleTarget ci).bri c.bri (cycleSteps ci))
          (cycleSteps ci) c (k + 1)).next
      · simp only [hs2, if_true] at he
        exact runTicks_events_shape stopT _ _ _ _ _ _ e he
      · simp only [hs2, Bool.false_eq_true, if_false, List.mem_append] at he
        rcases he with he | he
        · exact runTicks_events_shape stopT _ _ _ _ _ _ e he
        · exact ih _ _ e he

theorem countP_restore_of_shape (l : List Event)
    (h : ∀ e ∈ l, TickWriteInRange e) : l.countP isRestoreEv = 0 := by
  refine List.countP_eq_zero.mpr fun e he => ?_
  obtain ⟨h1, s1, b1, rfl, -⟩ := h e he
  simp [isRestoreEv]

theorem countP_tick_of_shape (l : List Event)
    (h : ∀ e ∈ l, TickWriteInRange e) : l.countP isTickEv = l.length := by
  refine List.countP_eq_length.mpr fun e he => ?_
  obtain ⟨h1, s1, b1, rfl, -⟩ := h e he
  simp [isTickEv]

theorem preEvents_countP_restore (o : LightSnap) :
    (preEvents o).countP isRestoreEv = 0 := by
  unfold preEvents; split <;> rfl

theorem preEvents_countP_tick (o : LightSnap) :
    (preEvents o).countP isTickEv = 0 := by
  unfold preEvents; split <;> rfl

/-! ### Unfolding lemmas for the mood trace -/

theorem mood_setup_ok (a : MoodArgs) (lid : String) (raw : RawState)
    (huid : userIdMissing a.userId = false)
    (hres : a.resolveResult = .ok (some lid)) (hlid : lid ≠ "")
    (hread : a.readResult = .ok raw)
    (hpow : (origOf raw).isOn = true ∨ a.powerOnFails = false) :
    mood a = moodLoop a (origOf raw) := by
  rcases hpow with h | h <;>
    simp [mood, huid, hres, hlid, hread, h]

theorem moodLoop_done (a : MoodArgs) (o : LightSnap)
    (hexit : (runCycles a.stopT a.cycles (curOf o) 0).exited = true) :
    moodLoop a o = .done (preEvents o ++
      (runCycles a.stopT a.cycles (curOf o) 0).events ++
      restoreEvents a.restoreOnExit o) := by
  simp [moodLoop, hexit]

/-- Running the tick loop against a stop event that becomes set at check
index `T`: with the loop's checks starting at index `s ≤ T` and more than
`T - s` ticks remaining, exactly `T - s` animation writes are issued, the
loop breaks on the stop event, and check index `T + 1` is the next unused
one. -/
theorem runTicks_stops (T : Nat) (dh ds db : ℚ) :
    ∀ (n : Nat) (c : Cur) (s : Nat), s ≤ T → T - s < n →
      (runTicks (some T) dh ds db n c s).events.length = T - s ∧
      (runTicks (some T) dh ds db n c s).next = T + 1 ∧
      (runTicks (some T) dh ds db n c s).stopped = true := by
  intro n
  induction n with
  | zero => intro c s h1 h2; omega
  | succ n ih =>
    intro c s h1 h2
    by_cases hs : T ≤ s
    · have hTs : s = T := le_antisymm h1 hs
      subst hTs
      simp [runTicks, isSetAt]
    · have h1' : s + 1 ≤ T := by omega
      have h2' : T - (s + 1) < n := by omega
      obtain ⟨e1, e2, e3⟩ := ih (tickOnce c dh ds db) (s + 1) h1' h2'
      simp only [runTicks, isSetAt, hs, decide_eq_true_eq, if_false,
        List.length_cons]
      refine ⟨?_, e2, e3⟩
      rw [e1]
      omega

/-- A single animation cycle against a stop event that becomes set at check
index `T`, with `0 < T` (the outer check passes) and `T - 1` smaller than
the step count (the event is set strictly before the last tick): the cycle
loop exits, having issued exactly `T - 1` animation writes. -/
theorem runCycles_single_cancel (T : Nat) (ci : CycleInput) (c : Cur)
    (hT : 0 < T) (hlt : T - 1 < cycleSteps ci) :
    (runCycles (some T) [ci] c 0).exited = true ∧
    (runCycles (some T) [ci] c 0).events.length = T - 1 := by
  have h0 : isSetAt (some T) 0 = false := by
    simp [isSetAt]; omega
  obtain ⟨e1, e2, e3⟩ := runTicks_stops T
    (incr (sampleTarget ci).hue c.hue (cycleSteps ci))
    (incr (sampleTarget ci).sat c.sat (cycleSteps ci))
    (incr (sampleTarget ci).bri c.bri (cycleSteps ci))
    (cycleSteps ci) c 1 (by omega) (by omega)
  have hpost : isSetAt (some T) (runTicks (some T)
      (incr (sampleTarget ci).hue c.hue (cycleSteps ci))
      (incr (sampleTarget ci).sat c.sat (cycleSteps ci))
      (incr (sampleTarget ci).bri c.bri (cycleSteps ci))
      (cycleSteps ci) c 1).next = true := by
    rw [e2]; simp [isSetAt]
  simp only [runCycles, h0, Bool.false_eq_true, if_false, hpost, if_true]
  refine ⟨trivial, ?_⟩
  rw [e1]

/-- Without cancellation, the k-th animation write of a cycle (0-indexed)
carries exactly the k+1-fold iterate of the clamped-increment step from the
cycle's starting state. -/
theorem runTicks_none_events_get (dh ds db : ℚ) :
    ∀ (n k : Nat) (c : Cur) (s : Nat), k < n →
      (runTicks none dh ds db n c s).events[k]? =
        some (Event.tickWrite (applyTicks dh ds db (k + 1) c).hue
          (applyTicks dh ds db (k + 1) c).sat
          (applyTicks dh ds db (k + 1) c).bri) := by
  intro n
  induction n with
  | zero => intro k c s hk; omega
  | succ n ih =>
    intro k c s hk
    cases k with
    | zero =>
      simp [runTicks, isSetAt, applyTicks]
    | succ k =>
      simp only [runTicks, isSetAt, Bool.false_eq_true, if_false,
        List.getElem?_cons_succ]
      rw [ih k (tickOnce c dh ds db) (s + 1) (by omega)]
      rfl

theorem randint_range (lo hi : Int) (s : Nat) (h : lo ≤ hi) :
    lo ≤ randint lo hi s ∧ randint lo hi s ≤ hi := by
  unfold randint
  have hpos : 0 < (hi - lo + 1).toNat := by omega
  have := Nat.mod_lt s hpos
  omega

/-! ### Claim theorems -/

/-- C4: the resolved maxSeconds value follows the three-tier priority chain —
a command-line override wins over the environment setting, which wins over
the hard default of 30.0 — and the resolved value is clamped to a floor of
0.5 seconds regardless of source; in particular override 2.0 with
env-setting 10.0 gives 2.0, env-setting 0.1 alone gives 0.5, and neither
gives 30.0. -/
theorem C4_max_seconds_resolution :
    (∀ (c : ℚ) (envValue : Option ℚ) (d : ℚ),
      get_mood_max_seconds (some c) envValue d = if c < 1/2 then 1/2 else c) ∧
    (∀ e d : ℚ,
      get_mood_max_seconds none (some e) d = if e < 1/2 then 1/2 else e) ∧
    (∀ d : ℚ, get_mood_max_seconds none none d = if d < 1/2 then 1/2 else d) ∧
    (∀ (cliValue envValue : Option ℚ) (d : ℚ),
      1/2 ≤ get_mood_max_seconds cliValue envValue d) ∧
    get_mood_max_seconds (some 2) (some 10) 30 = 2 ∧
    get_mood_max_seconds none (some (1/10)) 30 = 1/2 ∧
    get_mood_max_seconds none none 30 = 30 := by
  refine ⟨fun c e d => rfl, fun e d => rfl, fun d => rfl, fun cv ev d => ?_, ?_, ?_, ?_⟩
  · rcases cv with - | c
    · rcases ev with - | e
      · simp only [get_mood_max_seconds]
        split <;> linarith
      · simp only [get_mood_max_seconds]
        split <;> linarith
    · simp only [get_mood_max_seconds]
      split <;> linarith
  · norm_num [get_mood_max_seconds]
  · norm_num [get_mood_max_seconds]
  · norm_num [get_mood_max_seconds]

/-- C8: the step count of a cycle is `max(1, round(duration / 0.1))`, hence
always at least 1, and a duration of 0.5 seconds gives exactly 5 steps. -/
theorem C8_step_count :
    (∀ t : ℚ, (stepsOf t : Int) = max 1 (pyRound (t / (1/10)))) ∧
    (∀ t : ℚ, 1 ≤ stepsOf t) ∧
    stepsOf (1/2) = 5 := by
  refine ⟨fun t => ?_, fun t => Nat.le_max_left 1 _, ?_⟩
  · unfold stepsOf
    omega
  · have h5 : ((1:ℚ)/2) / (1/10) = 5 := by norm_num
    unfold stepsOf
    rw [h5]
    norm_num [pyRound]
    decide

/-- C9: for current = (hue 0, sat 200, bri 200), target =
(hue 100, sat 150, bri 100) and 5 steps, the per-tick increments are
(20, -10, -20), and the state applied after tick 1 (rounded and clamped)
is (hue 20, sat 190, bri 180). -/
theorem C9_concrete_increments :
    incr 100 0 5 = 20 ∧ incr 150 200 5 = -10 ∧ incr 100 200 5 = -20 ∧
    tickOnce ⟨0, 200, 200⟩ 20 (-10) (-20) = ⟨20, 190, 180⟩ := by
  refine ⟨by norm_num [incr], by norm_num [incr], by norm_num [incr], ?_⟩
  simp only [tickOnce, Cur.mk.injEq]
  norm_num [pyRound, clampI]

/-- C10: when the HUE_USER_ID credential is absent from the configuration,
`mood` raises `RuntimeError` before any network operation or device
mutation (its trace of issued calls is empty), instead of logging and
returning like the other setup failures. -/
theorem C10_missing_credential (a : MoodArgs) (h : a.userId = none) :
    mood a = .raisedRuntimeError [] := by
  simp [mood, userIdMissing, h]

theorem C10_missing_credential_witness :
    wNoUser.userId = none ∧ mood wNoUser = .raisedRuntimeError [] :=
  ⟨rfl, C10_missing_credential wNoUser rfl⟩

/-- C6: if reading the device's current state fails during setup — be it a
transport failure or a JSON parse failure — the loop exits after only the
two GETs, issuing no write and no restoration. -/
theorem C6_read_failure (a : MoodArgs) (lid : String) (e : ReadErr)
    (huid : userIdMissing a.userId = false)
    (hres : a.resolveResult = .ok (some lid)) (hlid : lid ≠ "")
    (hread : a.readResult = .error e) :
    mood a = .done [.getLights, .getState] := by
  simp [mood, huid, hres, hlid, hread]

theorem C6_read_failure_witness :
    wReadFail.readResult = .error .parse ∧
    mood wReadFail = .done [.getLights, .getState] :=
  ⟨rfl, C6_read_failure wReadFail "7" .parse rfl rfl (by decide) rfl⟩

/-- C7 counterexample: the claim that numeric fields are clamped only by
the caller and not by the client is false — `set_light_state` itself clamps:
called with bri=500 it transmits bri=254, not the passed value. -/
theorem C7_client_clamps_counterexample :
    (set_light_state none (some 500) none none none).bri = some 254 ∧
    some (254 : Int) ≠ some (500 : Int) := by
  exact ⟨rfl, by decide⟩

/-- C7 amended: only the fields passed as non-None are included in the
payload, and each numeric field is also clamped by the client itself
(`bri` to [1,254], `hue` to [0,65535], `sat` to [0,254]); a value already in
the caller-clamped range is transmitted unchanged. -/
theorem C7_payload_fields (onVal : Option Bool) (bri hue sat tt : Option Int) :
    ((set_light_state onVal bri hue sat tt).isOn.isSome = onVal.isSome) ∧
    ((set_light_state onVal bri hue sat tt).bri.isSome = bri.isSome) ∧
    ((set_light_state onVal bri hue sat tt).hue.isSome = hue.isSome) ∧
    ((set_light_state onVal bri hue sat tt).sat.isSome = sat.isSome) ∧
    ((set_light_state onVal bri hue sat tt).transitiontime.isSome = tt.isSome) ∧
    (∀ b, bri = some b → 1 ≤ b → b ≤ 254 →
      (set_light_state onVal bri hue sat tt).bri = some b) ∧
    (∀ h, hue = some h → 0 ≤ h → h ≤ 65535 →
      (set_light_state onVal bri hue sat tt).hue = some h) ∧
    (∀ s, sat = some s → 0 ≤ s → s ≤ 254 →
      (set_light_state onVal bri hue sat tt).sat = some s) ∧
    (∀ b, bri = some b → ∃ b2, (set_light_state onVal bri hue sat tt).bri = some b2 ∧
      1 ≤ b2 ∧ b2 ≤ 254) ∧
    (∀ h, hue = some h → ∃ h2, (set_light_state onVal bri hue sat tt).hue = some h2 ∧
      0 ≤ h2 ∧ h2 ≤ 65535) ∧
    (∀ s, sat = some s → ∃ s2, (set_light_state onVal bri hue sat tt).sat = some s2 ∧
      0 ≤ s2 ∧ s2 ≤ 254) := by
  unfold set_light_state
  refine ⟨rfl, Option.isSome_map .., Option.isSome_map .., Option.isSome_map ..,
    Option.isSome_map .., ?_, ?_, ?_, ?_, ?_, ?_⟩
  · rintro b rfl h1 h2
    show some (max 1 (min 254 b)) = some b
    congr 1
    omega
  · rintro h rfl h1 h2
    show some (max 0 (min 65535 h)) = some h
    congr 1
    omega
  · rintro v rfl h1 h2
    show some (max 0 (min 254 v)) = some v
    congr 1
    omega
  · rintro b rfl
    exact ⟨max 1 (min 254 b), rfl, by omega, by omega⟩
  · rintro h rfl
    exact ⟨max 0 (min 65535 h), rfl, by omega, by omega⟩
  · rintro v rfl
    exact ⟨max 0 (min 254 v), rfl, by omega, by omega⟩

theorem C7_payload_fields_witness :
    (set_light_state (some true) (some 200) (some 300) (some 100) (some 0)).bri = some 200 ∧
    (∃ h2, (set_light_state (some true) (some 200) (some 70000) (some 100) (some 0)).hue =
      some h2 ∧ 0 ≤ h2 ∧ h2 ≤ 65535) := by
  constructor
  · exact (C7_payload_fields (some true) (some 200) (some 300) (some 100)
      (some 0)).2.2.2.2.2.1 200 rfl (by decide) (by decide)
  · exact (C7_payload_fields (some true) (some 200) (some 70000) (some 100)
      (some 0)).2.2.2.2.2.2.2.2.2.1 70000 rfl

/-- C5 counterexample: the increments do not accumulate in floating point
across ticks — the applied value is re-rounded to an integer every tick and
the next tick starts from that integer.  Starting at hue 0 with target hue 2
over 5 steps (increment 2/5), the write at tick 2 carries hue 0, while
"starting value plus 2 increments, rounded" is round(4/5) = 1. -/
theorem C5_no_float_accumulation_counterexample :
    (runTicks none (incr 2 0 5) 0 0 2 ⟨0, 200, 200⟩ 0).events[1]? =
      some (Event.tickWrite 0 200 200) ∧
    pyRound (((0 : Int) : ℚ) + 2 * incr 2 0 5) = 1 ∧
    (0 : Int) ≠ 1 := by
  refine ⟨?_, ?_, by decide⟩
  · have h1 : tickOnce ⟨0, 200, 200⟩ (incr 2 0 5) 0 0 = ⟨0, 200, 200⟩ := by
      simp only [tickOnce, Cur.mk.injEq]
      norm_num [incr, pyRound, clampI]
    simp [runTicks, isSetAt, h1]
  · norm_num [incr, pyRound]

/-- C5 amended: the per-tick increment is (target − current)/stepCount, but
the applied current values are re-rounded to integers each tick and the
fractional part is not carried over: without cancellation, the write at
tick k+1 carries exactly the (k+1)-fold iterate of
v ↦ clamp(round(v + increment)) from the cycle's starting value (which can
differ from round(start + (k+1)·increment)). -/
theorem C5_iterated_rounding (dh ds db : ℚ) (n k : Nat) (c : Cur) (s : Nat)
    (hk : k < n) :
    (runTicks none dh ds db n c s).events[k]? =
      some (Event.tickWrite (applyTicks dh ds db (k + 1) c).hue
        (applyTicks dh ds db (k + 1) c).sat
        (applyTicks dh ds db (k + 1) c).bri) :=
  runTicks_none_events_get dh ds db n k c s hk

theorem C5_iterated_rounding_witness :
    1 < 2 ∧
    (runTicks none (incr 2 0 5) 0 0 2 ⟨0, 200, 200⟩ 0).events[1]? =
      some (Event.tickWrite (applyTicks (incr 2 0 5) 0 0 2 ⟨0, 200, 200⟩).hue
        (applyTicks (incr 2 0 5) 0 0 2 ⟨0, 200, 200⟩).sat
        (applyTicks (incr 2 0 5) 0 0 2 ⟨0, 200, 200⟩).bri) :=
  ⟨by decide, C5_iterated_rounding (incr 2 0 5) 0 0 2 1 ⟨0, 200, 200⟩ 0 (by decide)⟩

/-- C1: whenever a run of the animation loop reaches the cycle loop (setup
succeeded), exactly one restoration write is issued when the loop exits on
any exit path, and it carries exactly the original snapshot captured before
the first cycle — never a value mutated by the cycle loop — regardless of
how many cycles ran. -/
theorem C1_restoration_exactness (a : MoodArgs) (lid : String) (raw : RawState)
    (huid : userIdMissing a.userId = false)
    (hres : a.resolveResult = .ok (some lid)) (hlid : lid ≠ "")
    (hread : a.readResult = .ok raw)
    (hpow : (origOf raw).isOn = true ∨ a.powerOnFails = false)
    (hexit : (runCycles a.stopT a.cycles (curOf (origOf raw)) 0).exited = true)
    (hrestore : a.restoreOnExit = true) :
    ∃ evs, mood a = .done (evs ++
        [Event.restoreWrite (origOf raw).isOn (origOf raw).bri (origOf raw).hue
          (origOf raw).sat]) ∧
      evs.countP isRestoreEv = 0 := by
  refine ⟨preEvents (origOf raw) ++
    (runCycles a.stopT a.cycles (curOf (origOf raw)) 0).events, ?_, ?_⟩
  · rw [mood_setup_ok a lid raw huid hres hlid hread hpow,
      moodLoop_done a _ hexit]
    simp [restoreEvents, hrestore]
  · rw [List.countP_append, preEvents_countP_restore,
      countP_restore_of_shape _ (runCycles_events_shape _ _ _ _)]

theorem C1_restoration_exactness_witness :
    (runCycles wExitNow.stopT wExitNow.cycles (curOf (origOf wRaw)) 0).exited = true ∧
    ∃ evs, mood wExitNow = .done (evs ++ [Event.restoreWrite true 77 1000 99]) ∧
      evs.countP isRestoreEv = 0 :=
  ⟨by decide,
   C1_restoration_exactness wExitNow "7" wRaw rfl rfl (by decide) rfl (Or.inl rfl)
     (by decide) rfl⟩

theorem restoreEvents_countP_tick (o : LightSnap) :
    (restoreEvents true o).countP isTickEv = 0 := rfl

theorem restoreEvents_countP_restore (o : LightSnap) :
    (restoreEvents true o).countP isRestoreEv = 1 := rfl

/-- C2: if the cancellation signal becomes set after tick k of an n-tick
cycle (k < n), the loop issues no animation write for ticks k+1..n (the
trace holds exactly k animation writes), exits the cycle loop, and issues
exactly one restoration write carrying the originally captured state, as
its final call. -/
theorem C2_cancellation_mid_cycle (a : MoodArgs) (lid : String) (raw : RawState)
    (ci : CycleInput) (k : Nat)
    (huid : userIdMissing a.userId = false)
    (hres : a.resolveResult = .ok (some lid)) (hlid : lid ≠ "")
    (hread : a.readResult = .ok raw)
    (hpow : (origOf raw).isOn = true ∨ a.powerOnFails = false)
    (hcyc : a.cycles = [ci])
    (hstop : a.stopT = some (k + 1))
    (hk : k < cycleSteps ci)
    (hrestore : a.restoreOnExit = true) :
    ∃ evs, mood a = .done evs ∧
      evs.countP isTickEv = k ∧
      evs.countP isRestoreEv = 1 ∧
      evs.getLast? = some (Event.restoreWrite (origOf raw).isOn (origOf raw).bri
        (origOf raw).hue (origOf raw).sat) := by
  obtain ⟨hex, hlen⟩ := runCycles_single_cancel (k + 1) ci (curOf (origOf raw))
    (by omega) (by omega)
  have hexit : (runCycles a.stopT a.cycles (curOf (origOf raw)) 0).exited = true := by
    rw [hcyc, hstop]; exact hex
  have hLlen : (runCycles a.stopT a.cycles (curOf (origOf raw)) 0).events.length = k := by
    rw [hcyc, hstop, hlen]
    omega
  have hshape := runCycles_events_shape a.stopT a.cycles (curOf (origOf raw)) 0
  rw [mood_setup_ok a lid raw huid hres hlid hread hpow, moodLoop_done a _ hexit,
    hrestore]
  refine ⟨_, rfl, ?_, ?_, ?_⟩
  · rw [List.countP_append, List.countP_append, preEvents_countP_tick,
      countP_tick_of_shape _ hshape, hLlen, restoreEvents_countP_tick]
    omega
  · rw [List.countP_append, List.countP_append, preEvents_countP_restore,
      countP_restore_of_shape _ hshape, restoreEvents_countP_restore]
  · simp [restoreEvents]

theorem C2_cancellation_mid_cycle_witness :
    3 < cycleSteps wCiTen ∧
    ∃ evs, mood wCancelMid = .done evs ∧
      evs.countP isTickEv = 3 ∧
      evs.countP isRestoreEv = 1 ∧
      evs.getLast? = some (Event.restoreWrite true 77 1000 99) := by
  have hsteps : cycleSteps wCiTen = 10 := by
    norm_num [cycleSteps, wCiTen, stepsOf, tSecondsOf, maxSecondsOf,
      get_mood_max_seconds, uniformQ, pyRound, Int.fract]
    decide
  refine ⟨by omega, ?_⟩
  exact C2_cancellation_mid_cycle wCancelMid "7" wRaw wCiTen 3 rfl rfl (by decide)
    rfl (Or.inl rfl) rfl rfl (by omega) rfl

/-- Every event in any trace `mood` produces is one of the two setup GETs,
the power-on write, an in-range animation write, or a restoration write. -/
theorem mood_events_cases (a : MoodArgs) (evs : List Event)
    (hm : mood a = .done evs ∨ mood a = .running evs) :
    ∀ e ∈ evs, e = .getLights ∨ e = .getState ∨ e = .powerOn ∨
      TickWriteInRange e ∨ isRestoreEv e = true := by
  intro e he
  have hloop : ∀ o : LightSnap,
      (moodLoop a o = .done evs ∨ moodLoop a o = .running evs) →
      e = Event.getLights ∨ e = Event.getState ∨ e = Event.powerOn ∨
        TickWriteInRange e ∨ isRestoreEv e = true := by
    intro o ho
    have hpre : ∀ x ∈ preEvents o, x = Event.getLights ∨ x = Event.getState ∨
        x = Event.powerOn := by
      intro x hx
      unfold preEvents at hx
      split at hx <;> simp_all <;> tauto
    have hrest : ∀ x ∈ restoreEvents a.restoreOnExit o, isRestoreEv x = true := by
      intro x hx
      unfold restoreEvents at hx
      split at hx
      · simp at hx
        subst hx
        rfl
      · simp at hx
    unfold moodLoop at ho
    rcases ho with ho | ho <;> split at ho <;>
      simp only [MoodResult.done.injEq, MoodResult.running.injEq,
        reduceCtorEq] at ho <;> subst ho
    · rcases List.mem_append.mp he with h1 | h1
      · rcases List.mem_append.mp h1 with h2 | h2
        · rcases hpre e h2 with h | h | h <;> tauto
        · exact Or.inr (Or.inr (Or.inr (Or.inl
            (runCycles_events_shape _ _ _ _ e h2))))
      · exact Or.inr (Or.inr (Or.inr (Or.inr (hrest e h1))))
    · rcases List.mem_append.mp he with h1 | h1
      · rcases hpre e h1 with h | h | h <;> tauto
      · exact Or.inr (Or.inr (Or.inr (Or.inl
          (runCycles_events_shape _ _ _ _ e h1))))
  unfold mood at hm
  split at hm
  · rcases hm with hm | hm <;> simp at hm
  · split at hm
    · rcases hm with hm | hm <;>
        simp only [MoodResult.done.injEq, reduceCtorEq] at hm
      subst hm
      simp only [List.mem_singleton] at he
      tauto
    · rcases hm with hm | hm <;>
        simp only [MoodResult.done.injEq, reduceCtorEq] at hm
      subst hm
      simp only [List.mem_singleton] at he
      tauto
    · split at hm
      · rcases hm with hm | hm <;>
          simp only [MoodResult.done.injEq, reduceCtorEq] at hm
        subst hm
        simp only [List.mem_singleton] at he
        tauto
      · split at hm
        · rcases hm with hm | hm <;>
            simp only [MoodResult.done.injEq, reduceCtorEq] at hm
          subst hm
          simp only [List.mem_cons, List.mem_singleton] at he
          rcases he with he | he | he <;> simp_all
        · split at hm
          · rcases hm with hm | hm <;>
              simp only [MoodResult.done.injEq, reduceCtorEq] at hm
            subst hm
            rename_i raw hq hcond
            rcases (show ∀ x ∈ preEvents (origOf raw), x = Event.getLights ∨
                x = Event.getState ∨ x = Event.powerOn by
              intro x hx
              unfold preEvents at hx
              split at hx <;> simp_all) e he with h | h | h <;> tauto
          · exact hloop _ hm

/-- C3: every freshly sampled cycle target satisfies hue ∈ [0,65535],
saturation ∈ [150,254], brightness ∈ [10,254]; and every animation write a
mood run applies, after rounding and clamping, satisfies hue ∈ [0,65535],
saturation ∈ [0,254], brightness ∈ [1,254] — after every increment, over
any number of ticks and cycles. -/
theorem C3_range_invariants :
    (∀ ci : CycleInput,
      0 ≤ (sampleTarget ci).hue ∧ (sampleTarget ci).hue ≤ 65535 ∧
      150 ≤ (sampleTarget ci).sat ∧ (sampleTarget ci).sat ≤ 254 ∧
      10 ≤ (sampleTarget ci).bri ∧ (sampleTarget ci).bri ≤ 254) ∧
    (∀ (a : MoodArgs) (evs : List Event),
      mood a = .done evs ∨ mood a = .running evs →
      ∀ h s b, Event.tickWrite h s b ∈ evs →
        0 ≤ h ∧ h ≤ 65535 ∧ 0 ≤ s ∧ s ≤ 254 ∧ 1 ≤ b ∧ b ≤ 254) := by
  constructor
  · intro ci
    unfold sampleTarget
    obtain ⟨a1, a2⟩ := randint_range 0 65535 ci.hueSeed (by omega)
    obtain ⟨b1, b2⟩ := randint_range 150 254 ci.satSeed (by omega)
    obtain ⟨c1, c2⟩ := randint_range 10 254 ci.briSeed (by omega)
    exact ⟨a1, a2, b1, b2, c1, c2⟩
  · intro a evs hm h s b hmem
    rcases mood_events_cases a evs hm _ hmem with h1 | h1 | h1 | h1 | h1
    · cases h1
    · cases h1
    · cases h1
    · obtain ⟨h2, s2, b2, heq, r1, r2, r3, r4, r5, r6⟩ := h1
      cases heq
      exact ⟨r1, r2, r3, r4, r5, r6⟩
    · simp [isRestoreEv] at h1

theorem C3_range_invariants_witness :
    (0 ≤ (sampleTarget wCi).hue ∧ (sampleTarget wCi).hue ≤ 65535 ∧
      150 ≤ (sampleTarget wCi).sat ∧ (sampleTarget wCi).sat ≤ 254 ∧
      10 ≤ (sampleTarget wCi).bri ∧ (sampleTarget wCi).bri ≤ 254) ∧
    (mood wKeepRunning = .done wRunTrace ∨ mood wKeepRunning = .running wRunTrace) ∧
    Event.tickWrite 820 109 64 ∈ wRunTrace ∧
    (0 ≤ (820 : Int) ∧ (820 : Int) ≤ 65535 ∧ 0 ≤ (109 : Int) ∧
      (109 : Int) ≤ 254 ∧ 1 ≤ (64 : Int) ∧ (64 : Int) ≤ 254) := by
  have h1 : sampleTarget wCi = ⟨100, 150, 10⟩ := by
    norm_num [sampleTarget, wCi, randint, Target.mk.injEq]
  have h2 : cycleSteps wCi = 5 := by
    norm_num [cycleSteps, wCi, stepsOf, tSecondsOf, maxSecondsOf,
      get_mood_max_seconds, uniformQ, Int.fract, pyRound]
    decide
  have h3 : incr 100 1000 5 = -180 := by norm_num [incr]
  have h4 : incr 150 99 5 = 51/5 := by norm_num [incr]
  have h5 : incr 10 77 5 = -67/5 := by norm_num [incr]
  have h6 : runTicks none (-180) (51/5) (-67/5) 5 ⟨1000, 99, 77⟩ 1 =
      ⟨[.tickWrite 820 109 64, .tickWrite 640 119 51, .tickWrite 460 129 38,
        .tickWrite 280 139 25, .tickWrite 100 149 12], ⟨100, 149, 12⟩, 6, false⟩ := by
    norm_num [runTicks, isSetAt, tickOnce, pyRound, clampI]
  have htr : mood wKeepRunning = .running wRunTrace := by
    simp [mood, wKeepRunning, wRaw, userIdMissing, origOf, curOf, moodLoop,
      runCycles, isSetAt, preEvents, h1, h2, h3, h4, h5, h6, wRunTrace]
  exact ⟨C3_range_invariants.1 wCi, Or.inr htr, by decide,
    C3_range_invariants.2 wKeepRunning wRunTrace (Or.inr htr) 820 109 64 (by decide)⟩
